import Mathlib

/-!
Shallow embedding of the client-side state and data-synchronization layer of a
movie-discovery frontend: the HTTP gateway (axios service with its request and
response interceptors, token storage, error normalization) and the two zustand
stores (auth session store, app collection store).

Conventions of the embedding:
* `localStorage` is modelled as a record of the keys the code touches
  (`access_token`, `refresh_token`, `user`, and the zustand persist record
  stored under the `auth-storage` key).
* Asynchronous HTTP calls are modelled by an environment value of type
  `HttpOutcome` giving the settled result of each network exchange.
* JavaScript truthiness on strings (empty string is falsy) is modelled
  explicitly by `jsTruthy` / `jsOr`.
* `JSON.stringify` of the user is abstracted to an opaque encoding
  (`stringifyUser`); `JSON.parse` is an environment parameter of type
  `String → Option User` (`none` models a parse exception).
* Toast notifications are collected as an output list where a claim refers to
  user-visible feedback.
-/

/-- Model of `AuthTokens` from the types module: `{ access, refresh }`. -/
structure AuthTokens where
  access : String
  refresh : String
deriving Repr, DecidableEq

/-- Model of `User` from the types module (fields used by the modelled code). -/
structure User where
  id : Int
  username : String
  email : String
  first_name : String
  last_name : String
deriving Repr, DecidableEq

/-- Model of `Movie` from the types module, restricted to the fields the store and the
favorites/watchlist payloads read (`id`, `title`, `poster_path`,
`release_date`); the remaining display metadata is elided. -/
structure Movie where
  id : Int
  title : String
  poster_path : Option String
  release_date : String
deriving Repr, DecidableEq

/-- Model of `FavoriteMovie` from the types module. -/
structure FavoriteMovie where
  id : Int
  movie_id : Int
  title : String
  poster_path : Option String
  release_date : String
  added_at : String
deriving Repr, DecidableEq

/-- Model of `ApiError` from the types module: the normalized error shape produced by
`ApiService.handleError`. -/
structure ApiError where
  error : String
  status : Int
deriving Repr, DecidableEq

/-- A react-hot-toast emission: `toast.success`, `toast.error`, or plain
`toast(...)`. -/
inductive Toast where
  | success (msg : String)
  | error (msg : String)
  | plain (msg : String)
deriving Repr, DecidableEq

/-- JavaScript truthiness of a nullable string: `null`/absent and the empty
string are falsy. -/
def jsTruthy : Option String → Bool
  | none => false
  | some s => s != ""

/-- JavaScript `a || b` on strings: the empty string falls through to the
fallback. -/
def jsOr (s fallback : String) : String :=
  if s = "" then fallback else s

/-- JavaScript `a || b` where `a` is a possibly-absent string field. -/
def jsOrOpt : Option String → String → String
  | none, fallback => fallback
  | some s, fallback => jsOr s fallback

/-- The zustand persist record written under the `auth-storage` key:
`partialize` keeps `user`, `tokens`, `isAuthenticated` (not `isLoading`). -/
structure AuthPersist where
  user : Option User
  tokens : Option AuthTokens
  isAuthenticated : Bool
deriving Repr, DecidableEq

/-- The durable client storage keys touched by the code: the three keys the
gateway reads/writes directly, plus the `auth-storage` record maintained by
the zustand persist middleware of the auth store. -/
structure LocalStorage where
  access_token : Option String
  refresh_token : Option String
  user : Option String
  auth_storage : Option AuthPersist
deriving Repr, DecidableEq

/-- An empty storage (fresh browser profile). -/
def emptyStorage : LocalStorage :=
  { access_token := none, refresh_token := none, user := none, auth_storage := none }

/-- Model of `ApiService.getToken`: reads the `access_token` key. -/
def ApiService.getToken (st : LocalStorage) : Option String :=
  st.access_token

/-- Model of `ApiService.getRefreshToken`: reads the `refresh_token` key. -/
def ApiService.getRefreshToken (st : LocalStorage) : Option String :=
  st.refresh_token

/-- Model of `ApiService.setTokens`: writes both token keys. -/
def ApiService.setTokens (tokens : AuthTokens) (st : LocalStorage) : LocalStorage :=
  { st with access_token := some tokens.access, refresh_token := some tokens.refresh }

/-- Model of `ApiService.clearTokens`: removes exactly the `access_token`,
`refresh_token` and `user` keys (the `auth-storage` key is not touched). -/
def ApiService.clearTokens (st : LocalStorage) : LocalStorage :=
  { st with access_token := none, refresh_token := none, user := none }

/-- Model of `ApiService.logout` simply delegates to `clearTokens`. -/
def ApiService.logout (st : LocalStorage) : LocalStorage :=
  ApiService.clearTokens st

/-- An axios failure, as discriminated by `ApiService.handleError`:
a response with an error status (carrying the optional `data.error` and
`data.message` body fields), a request with no response (network), or a
failure before dispatch (carrying `error.message`). -/
inductive AxiosError where
  | response (status : Int) (errorField : Option String) (messageField : Option String)
  | request
  | setup (message : Option String)
deriving Repr, DecidableEq

/-- Model of `ApiService.handleError`: normalizes any failure into an `ApiError`. -/
def ApiService.handleError : AxiosError → ApiError
  | .response status errF msgF =>
      { error := jsOrOpt errF (jsOrOpt msgF "An error occurred"), status := status }
  | .request =>
      { error := "Network error. Please check your connection.", status := 0 }
  | .setup msg =>
      { error := jsOrOpt msg "An unexpected error occurred", status := 0 }

/-- The settled result of one HTTP exchange: the parsed response body
on success, or the axios failure. -/
inductive HttpOutcome (α : Type) where
  | ok (value : α)
  | fail (e : AxiosError)
deriving Repr, DecidableEq

/-- Does the failure satisfy `error.response?.status === 401`? -/
def is401 : AxiosError → Bool
  | .response status _ _ => status == 401
  | _ => false

/-- Model of `JSON.stringify(user)` abstracted to an opaque encoding; no claim depends
on the concrete format (parsing is an environment parameter). -/
def stringifyUser (u : User) : String :=
  u.username

/-- Model of `ApiService.refreshToken`: reads the stored refresh token (a missing or
empty token throws `No refresh token available`, caught and normalized by the
surrounding try/catch), posts to `/token/refresh/` (outcome supplied by the
environment), stores the new pair on success, and normalizes failures. -/
def ApiService.refreshToken (resp : HttpOutcome AuthTokens) (st : LocalStorage) :
    Except ApiError AuthTokens × LocalStorage :=
  if jsTruthy (ApiService.getRefreshToken st) then
    match resp with
    | .ok tokens => (.ok tokens, ApiService.setTokens tokens st)
    | .fail e => (.error (ApiService.handleError e), st)
  else
    (.error (ApiService.handleError (.setup (some "No refresh token available"))), st)

/-- The request interceptor: before dispatch, if the stored access token is
truthy, the `Authorization` header is set to `Bearer <token>`; otherwise the
header already on the request config (`prev`) is kept. -/
def attachAuth (st : LocalStorage) (prev : Option String) : Option String :=
  match ApiService.getToken st with
  | some t => if t != "" then some ("Bearer " ++ t) else prev
  | none => prev

/-- Environment for one gateway request: the settled server outcome of the
first dispatch, of the refresh exchange (consulted only when invoked), and of
the re-issued request (consulted only when re-issued). -/
structure RequestEnv (α : Type) where
  first : HttpOutcome α
  refresh : HttpOutcome AuthTokens
  second : HttpOutcome α
deriving Repr

/-- What the gateway rejects to its caller: either the raw axios error
(passed through by the response interceptor) or, on the refresh-failure path,
the normalized error thrown by `ApiService.refreshToken`. -/
inductive GatewayError where
  | raw (e : AxiosError)
  | refreshFailed (e : ApiError)
deriving Repr, DecidableEq

/-- The observable effects of one gateway request: the value or error settled
to the caller, the final durable storage, whether a navigation to `/login`
was forced, how many times the original request was re-issued, and the
`Authorization` header carried by the re-issued request (if any). -/
structure GatewayResult (α : Type) where
  outcome : Except GatewayError α
  storage : LocalStorage
  redirectedToLogin : Bool
  retries : Nat
  retryAuth : Option String
deriving Repr

/-- One request through the `ApiService` axios instance, with the response
interceptor unrolled. The interceptor fires on a failure; when the status is
401 and the config has not been marked `_retry`, it marks it, awaits
`refreshToken()`, on success re-attaches the stored access token (only when
truthy) and re-issues the original request — whose own failure, the `_retry`
mark now set, is rejected as-is (so a second 401 is final); on refresh
failure it calls `logout()` (i.e. `clearTokens`), navigates to `/login`, and
rejects the refresh error. Non-401 failures are rejected unchanged. -/
def gatewayCall {α : Type} (env : RequestEnv α) (st0 : LocalStorage) : GatewayResult α :=
  let auth0 := attachAuth st0 none
  match env.first with
  | .ok v =>
      { outcome := .ok v, storage := st0, redirectedToLogin := false,
        retries := 0, retryAuth := none }
  | .fail e =>
    if is401 e then
      match ApiService.refreshToken env.refresh st0 with
      | (.ok _, st1) =>
          let auth1 := attachAuth st1 auth0
          match env.second with
          | .ok v =>
              { outcome := .ok v, storage := st1, redirectedToLogin := false,
                retries := 1, retryAuth := auth1 }
          | .fail e2 =>
              { outcome := .error (.raw e2), storage := st1, redirectedToLogin := false,
                retries := 1, retryAuth := auth1 }
      | (.error apiErr, st1) =>
          { outcome := .error (.refreshFailed apiErr),
            storage := ApiService.clearTokens st1, redirectedToLogin := true,
            retries := 0, retryAuth := none }
    else
      { outcome := .error (.raw e), storage := st0, redirectedToLogin := false,
        retries := 0, retryAuth := none }

/-- What an endpoint method's catch block produces when it applies
`handleError` to the value rejected by the interceptor-wrapped call: a raw
axios error is normalized as usual, while a rejected refresh `ApiError`
object (the refresh-failure path) has neither `response` nor `request` nor a
`message` field, so `handleError` re-normalizes it into the generic client
error `An unexpected error occurred` with status 0. -/
def normalizeGatewayError : GatewayError → ApiError
  | .raw e => ApiService.handleError e
  | .refreshFailed _ => { error := "An unexpected error occurred", status := 0 }

/-- Model of `ApiService.login`: posts credentials to `/token/` through the
interceptor-wrapped axios instance, stores the returned tokens, then fetches
`/profile/` (also through the interceptor) and stores the serialized user;
any rejected failure is normalized by the catch block. The tokens are
written to durable storage before the profile fetch, and each of the two
calls carries its own `RequestEnv` (its 401 handling may itself rotate or
clear the stored pair). -/
def ApiService.login (tokenEnv : RequestEnv AuthTokens) (profileEnv : RequestEnv User)
    (st : LocalStorage) : Except ApiError (User × AuthTokens) × LocalStorage :=
  let r1 := gatewayCall tokenEnv st
  match r1.outcome with
  | .error ge => (.error (normalizeGatewayError ge), r1.storage)
  | .ok tokens =>
    let st1 := ApiService.setTokens tokens r1.storage
    let r2 := gatewayCall profileEnv st1
    match r2.outcome with
    | .error ge => (.error (normalizeGatewayError ge), r2.storage)
    | .ok user => (.ok (user, tokens), { r2.storage with user := some (stringifyUser user) })

/-- Model of `ApiService.register`: posts to `/register/` through the
interceptor-wrapped axios instance (so a 401 answer drives the refresh
protocol and its storage effects); the method itself performs no storage
writes, and a rejected failure is normalized by the catch block. -/
def ApiService.register (env : RequestEnv User) (st : LocalStorage) :
    Except ApiError User × LocalStorage :=
  let r := gatewayCall env st
  match r.outcome with
  | .ok u => (.ok u, r.storage)
  | .error ge => (.error (normalizeGatewayError ge), r.storage)

/-- The in-memory state of `useAuthStore`. -/
structure AuthState where
  user : Option User
  tokens : Option AuthTokens
  isAuthenticated : Bool
  isLoading : Bool
deriving Repr, DecidableEq

/-- The initial auth store state coded in `create(...)`. -/
def initialAuthState : AuthState :=
  { user := none, tokens := none, isAuthenticated := false, isLoading := false }

/-- The combined client state: the zustand auth store plus durable storage. -/
structure ClientState where
  auth : AuthState
  storage : LocalStorage
deriving Repr, DecidableEq

/-- The zustand persist middleware of the auth store: after every `set`, the
`partialize`d subset (`user`, `tokens`, `isAuthenticated`) is written under
the `auth-storage` key. -/
def persistAuthState (a : AuthState) (st : LocalStorage) : LocalStorage :=
  let p : AuthPersist :=
    { user := a.user, tokens := a.tokens, isAuthenticated := a.isAuthenticated }
  { st with auth_storage := some p }

/-- Model of `useAuthStore.logout`: calls `apiService.logout()` (clearing the three
gateway keys) and sets `user`/`tokens` to null and `isAuthenticated` to
false (persisted). -/
def storeLogout (c : ClientState) : ClientState :=
  let st1 := ApiService.logout c.storage
  let a1 : AuthState := { c.auth with user := none, tokens := none, isAuthenticated := false }
  { auth := a1, storage := persistAuthState a1 st1 }

/-- Model of `useAuthStore.login`: sets the in-flight flag, awaits `apiService.login`,
on success populates the session, on failure clears only the in-flight flag
and re-throws the normalized error. -/
def storeLogin (tokenEnv : RequestEnv AuthTokens) (profileEnv : RequestEnv User)
    (c : ClientState) : Except ApiError Unit × ClientState :=
  let a0 : AuthState := { c.auth with isLoading := true }
  let st0 := persistAuthState a0 c.storage
  match ApiService.login tokenEnv profileEnv st0 with
  | (.ok (user, tokens), st1) =>
      let a1 : AuthState := { a0 with
        user := some user, tokens := some tokens, isAuthenticated := true, isLoading := false }
      (.ok (), { auth := a1, storage := persistAuthState a1 st1 })
  | (.error e, st1) =>
      let a1 : AuthState := { a0 with isLoading := false }
      (.error e, { auth := a1, storage := persistAuthState a1 st1 })

/-- Model of `useAuthStore.register`: sets the in-flight flag, awaits
`apiService.register`, clears the flag in both branches, re-throwing the
normalized error on failure. -/
def storeRegister (env : RequestEnv User) (c : ClientState) :
    Except ApiError Unit × ClientState :=
  let a0 : AuthState := { c.auth with isLoading := true }
  let st0 := persistAuthState a0 c.storage
  match ApiService.register env st0 with
  | (.ok _, st1) =>
      let a1 : AuthState := { a0 with isLoading := false }
      (.ok (), { auth := a1, storage := persistAuthState a1 st1 })
  | (.error e, st1) =>
      let a1 : AuthState := { a0 with isLoading := false }
      (.error e, { auth := a1, storage := persistAuthState a1 st1 })

/-- Model of `useAuthStore.refreshToken`: awaits `apiService.refreshToken`; on success
sets the new tokens; on failure falls back to `get().logout()` (the error is
not re-thrown). -/
def storeRefreshToken (resp : HttpOutcome AuthTokens) (c : ClientState) : ClientState :=
  match ApiService.refreshToken resp c.storage with
  | (.ok tokens, st1) =>
      let a1 : AuthState := { c.auth with tokens := some tokens }
      { auth := a1, storage := persistAuthState a1 st1 }
  | (.error _, st1) => storeLogout { c with storage := st1 }

/-- Model of `useAuthStore.checkAuth`: reads the stored access token and serialized
user; when both are truthy it parses the user (the parse function is an
environment parameter modelling `JSON.parse`); on success it restores the
authenticated session (refresh token defaulted to the empty string when
absent); on a parse failure it falls back to `get().logout()`; otherwise it
leaves the state unchanged. -/
def storeCheckAuth (parse : String → Option User) (c : ClientState) : ClientState :=
  if jsTruthy c.storage.access_token && jsTruthy c.storage.user then
    match parse (c.storage.user.getD "") with
    | some user =>
        let a1 : AuthState := { c.auth with
          user := some user,
          tokens := some { access := c.storage.access_token.getD "",
                           refresh := c.storage.refresh_token.getD "" },
          isAuthenticated := true }
        { auth := a1, storage := persistAuthState a1 c.storage }
    | none => storeLogout c
  else c

/-- One invocation of an auth store operation, with its environment. -/
inductive AuthEvent where
  | login (tokenEnv : RequestEnv AuthTokens) (profileEnv : RequestEnv User)
  | register (env : RequestEnv User)
  | logout
  | refresh (resp : HttpOutcome AuthTokens)
  | checkAuth (parse : String → Option User)

/-- The state transition of one auth store operation. -/
def authStep : AuthEvent → ClientState → ClientState
  | .login tr pr, c => (storeLogin tr pr c).2
  | .register r, c => (storeRegister r c).2
  | .logout, c => storeLogout c
  | .refresh r, c => storeRefreshToken r c
  | .checkAuth p, c => storeCheckAuth p c

/-- Client states reachable from the coded initial store state (with
arbitrary durable storage) through the five auth store operations under
arbitrary environments. -/
inductive AuthReachable : ClientState → Prop where
  | init (st : LocalStorage) : AuthReachable { auth := initialAuthState, storage := st }
  | step (e : AuthEvent) {c : ClientState} :
      AuthReachable c → AuthReachable (authStep e c)

/-- The session store invariant stated by the specification:
`isAuthenticated` holds iff both the user and the token pair are present. -/
def authInvariant (a : AuthState) : Prop :=
  a.isAuthenticated = true ↔ (a.user ≠ none ∧ a.tokens ≠ none)

/-- Strengthened (inductive) invariant: additionally, a present user implies
a present token pair. -/
def authInvariantStrong (a : AuthState) : Prop :=
  authInvariant a ∧ (a.user ≠ none → a.tokens ≠ none)

/-- One gateway request viewed at the whole-client level: the response
interceptor operates on durable storage only — its forced logout goes through
`ApiService.logout`, never through the session store — so the auth store
state is carried through unchanged. -/
def gatewayRequest {α : Type} (env : RequestEnv α) (c : ClientState) :
    GatewayResult α × ClientState :=
  let r := gatewayCall env c.storage
  (r, { auth := c.auth, storage := r.storage })

/-- The in-memory state of `useAppStore`. -/
structure AppState where
  favorites : List FavoriteMovie
  watchlist : List Movie
  recentlyViewed : List Movie
  searchHistory : List String
  isLoading : Bool
deriving Repr, DecidableEq

/-- Model of `useAppStore.addToFavorites`: awaits `apiService.addToFavorites(movie)`
(the settled outcome is supplied by the environment); only after the server
confirms is the returned `FavoriteMovie` appended to the cache, followed by a
success toast; on failure an error toast is shown and the normalized error is
re-thrown with the cache untouched. -/
def AppStore.addToFavorites (resp : HttpOutcome FavoriteMovie) (_movie : Movie)
    (s : AppState) : Except ApiError Unit × AppState × List Toast :=
  match resp with
  | .ok favorite =>
      (.ok (), { s with favorites := s.favorites ++ [favorite] },
        [Toast.success "Film ajouté aux favoris!"])
  | .fail e =>
      let err := ApiService.handleError e
      (.error err, s,
        [Toast.error (jsOr err.error "Erreur lors de l\x27ajout aux favoris")])

/-- Model of `useAppStore.removeFromFavorites`: looks the movie id up in the cache;
when present, awaits the server delete and only then filters the cache; when
the delete fails the cache is untouched, an error toast is shown and the
normalized error is re-thrown; when the id is not cached nothing happens. -/
def AppStore.removeFromFavorites (resp : HttpOutcome Unit) (movieId : Int)
    (s : AppState) : Except ApiError Unit × AppState × List Toast :=
  match s.favorites.find? (fun f => f.movie_id == movieId) with
  | some _ =>
      match resp with
      | .ok _ =>
          (.ok (), { s with favorites := s.favorites.filter (fun f => f.movie_id != movieId) },
            [Toast.success "Film retiré des favoris!"])
      | .fail e =>
          let err := ApiService.handleError e
          (.error err, s,
            [Toast.error (jsOr err.error "Erreur lors de la suppression des favoris")])
  | none => (.ok (), s, [])

/-- Model of `useAppStore.addToWatchlist`: a purely local update; a duplicate movie id
is a no-op signalled with a plain toast, otherwise the movie is appended and
a success toast is shown. -/
def AppStore.addToWatchlist (movie : Movie) (s : AppState) : AppState × Toast :=
  if s.watchlist.any (fun m => m.id == movie.id) then
    (s, Toast.plain "Ce film est déjà dans votre liste à regarder")
  else
    ({ s with watchlist := s.watchlist ++ [movie] },
      Toast.success "Film ajouté à votre liste à regarder!")

/-- Model of `useAppStore.addToRecentlyViewed`: removes any entry with the same movie
id, inserts the movie at the front, and keeps the 50 most recent. -/
def AppStore.addToRecentlyViewed (movie : Movie) (s : AppState) : AppState :=
  { s with recentlyViewed :=
      (movie :: s.recentlyViewed.filter (fun m => m.id != movie.id)).take 50 }

/-- Model of `useAppStore.addToSearchHistory`: a no-op when the trimmed query is empty
(falsy); otherwise removes a prior identical entry, front-inserts the query,
and keeps the 20 most recent. -/
def AppStore.addToSearchHistory (query : String) (s : AppState) : AppState :=
  if query.trim = "" then s
  else
    { s with searchHistory :=
        (query :: s.searchHistory.filter (fun q => q != query)).take 20 }

/-- The recently-viewed invariant: pairwise-distinct movie ids and at most 50
entries. -/
def rvInvariant (l : List Movie) : Prop :=
  (l.map Movie.id).Nodup ∧ l.length ≤ 50

/-- The search-history invariant: pairwise-distinct queries and at most 20
entries. -/
def shInvariant (l : List String) : Prop :=
  l.Nodup ∧ l.length ≤ 20

/-- The initial app store state coded in `create(...)`. -/
def initialAppState : AppState :=
  { favorites := [], watchlist := [], recentlyViewed := [], searchHistory := [],
    isLoading := false }

/-! Helper lemmas about the collection operations. -/

theorem rvStep_invariant (m : Movie) (l : List Movie) (h : (l.map Movie.id).Nodup) :
    rvInvariant ((m :: l.filter (fun x => x.id != m.id)).take 50) := by
  have hfs : List.Sublist (l.filter (fun x => x.id != m.id)) l := List.filter_sublist l
  have hnf : ((l.filter (fun x => x.id != m.id)).map Movie.id).Nodup :=
    h.sublist (hfs.map Movie.id)
  have hnm : m.id ∉ (l.filter (fun x => x.id != m.id)).map Movie.id := by
    intro hmem
    rcases List.mem_map.mp hmem with ⟨x, hx, hxid⟩
    have hpx := (List.mem_filter.mp hx).2
    rw [hxid] at hpx
    simp at hpx
  refine ⟨?_, List.length_take_le _ _⟩
  have hcons : ((m :: l.filter (fun x => x.id != m.id)).map Movie.id).Nodup := by
    rw [List.map_cons, List.nodup_cons]
    exact ⟨hnm, hnf⟩
  exact hcons.sublist ((List.take_sublist _ _).map _)

theorem rvFold_invariant (adds : List Movie) :
    ∀ s : AppState, rvInvariant s.recentlyViewed →
      rvInvariant ((adds.foldl (fun t m => AppStore.addToRecentlyViewed m t) s).recentlyViewed) := by
  induction adds with
  | nil => intro s h; simpa using h
  | cons a as ih =>
      intro s h
      rw [List.foldl_cons]
      exact ih (AppStore.addToRecentlyViewed a s) (rvStep_invariant a s.recentlyViewed h.1)

theorem shStep_invariant (q : String) (l : List String) (h : l.Nodup) :
    shInvariant ((q :: l.filter (fun x => x != q)).take 20) := by
  have hfs : List.Sublist (l.filter (fun x => x != q)) l := List.filter_sublist l
  have hnf : (l.filter (fun x => x != q)).Nodup := h.sublist hfs
  have hnm : q ∉ l.filter (fun x => x != q) := by
    intro hmem
    have := (List.mem_filter.mp hmem).2
    simp at this
  refine ⟨?_, List.length_take_le _ _⟩
  have hcons : (q :: l.filter (fun x => x != q)).Nodup := by
    rw [List.nodup_cons]
    exact ⟨hnm, hnf⟩
  exact hcons.sublist (List.take_sublist _ _)

theorem shFold_invariant (adds : List String) :
    ∀ s : AppState, shInvariant s.searchHistory →
      shInvariant ((adds.foldl (fun t q => AppStore.addToSearchHistory q t) s).searchHistory) := by
  induction adds with
  | nil => intro s h; simpa using h
  | cons a as ih =>
      intro s h
      rw [List.foldl_cons]
      by_cases ha : a.trim = ""
      · exact ih _ (by simpa [AppStore.addToSearchHistory, ha] using h)
      · refine ih _ ?_
        have : (AppStore.addToSearchHistory a s).searchHistory
            = (a :: s.searchHistory.filter (fun x => x != a)).take 20 := by
          simp [AppStore.addToSearchHistory, ha]
        rw [this]
        exact shStep_invariant a s.searchHistory h.1

/-! The ten claims. -/

/-- C6: every sequence of `addToRecentlyViewed` calls from a valid state
yields a sequence with pairwise-distinct movie ids of length at most 50;
each single call puts the added movie at the front, leaves no other
occurrence of its id, and keeps the remaining entries in their previous
relative order (most-recent-first). -/
theorem recentlyViewed_nodup_capped_mrf (adds : List Movie) (s : AppState)
    (h : rvInvariant s.recentlyViewed) :
    rvInvariant ((adds.foldl (fun t m => AppStore.addToRecentlyViewed m t) s).recentlyViewed)
    ∧ (∀ (m : Movie) (t : AppState),
        ((AppStore.addToRecentlyViewed m t).recentlyViewed).head? = some m
        ∧ (∀ x ∈ ((AppStore.addToRecentlyViewed m t).recentlyViewed).tail, x.id ≠ m.id)
        ∧ List.Sublist ((AppStore.addToRecentlyViewed m t).recentlyViewed).tail
            t.recentlyViewed) := by
  refine ⟨rvFold_invariant adds s h, ?_⟩
  intro m t
  have hred : (AppStore.addToRecentlyViewed m t).recentlyViewed
      = m :: (t.recentlyViewed.filter (fun x => x.id != m.id)).take 49 := rfl
  refine ⟨by rw [hred]; rfl, ?_, ?_⟩
  · intro x hx
    rw [hred, List.tail_cons] at hx
    have hxf : x ∈ t.recentlyViewed.filter (fun y => y.id != m.id) :=
      (List.take_sublist _ _).subset hx
    have := (List.mem_filter.mp hxf).2
    simpa using this
  · rw [hred, List.tail_cons]
    exact (List.take_sublist _ _).trans (List.filter_sublist _)

/-- Witness for C6 at a concrete input: three adds with a repeated id from
the empty initial store. -/
theorem recentlyViewed_nodup_capped_mrf_witness :
    rvInvariant (([(⟨1, "A", none, "2020"⟩ : Movie), ⟨2, "B", none, "2021"⟩,
        ⟨1, "A", none, "2020"⟩].foldl
      (fun t m => AppStore.addToRecentlyViewed m t) initialAppState).recentlyViewed) :=
  (recentlyViewed_nodup_capped_mrf _ initialAppState (by constructor <;> simp [initialAppState])).1

/-- C7: every sequence of `addToSearchHistory` calls from a valid state
yields a duplicate-free history of length at most 20; a blank or
whitespace-only query leaves the state unchanged; a non-blank query is
front-inserted with no other identical entry remaining and the rest kept in
their previous relative order. -/
theorem searchHistory_nodup_capped_blank_noop (adds : List String) (s : AppState)
    (h : shInvariant s.searchHistory) :
    shInvariant ((adds.foldl (fun t q => AppStore.addToSearchHistory q t) s).searchHistory)
    ∧ (∀ (q : String) (t : AppState), q.trim = "" → AppStore.addToSearchHistory q t = t)
    ∧ (∀ (q : String) (t : AppState), q.trim ≠ "" →
        ((AppStore.addToSearchHistory q t).searchHistory).head? = some q
        ∧ (∀ x ∈ ((AppStore.addToSearchHistory q t).searchHistory).tail, x ≠ q)
        ∧ List.Sublist ((AppStore.addToSearchHistory q t).searchHistory).tail
            t.searchHistory) := by
  refine ⟨shFold_invariant adds s h, ?_, ?_⟩
  · intro q t hq
    simp [AppStore.addToSearchHistory, hq]
  · intro q t hq
    have hred : (AppStore.addToSearchHistory q t).searchHistory
        = q :: (t.searchHistory.filter (fun x => x != q)).take 19 := by
      simp only [AppStore.addToSearchHistory, if_neg hq]
      rfl
    refine ⟨by rw [hred]; rfl, ?_, ?_⟩
    · intro x hx
      rw [hred, List.tail_cons] at hx
      have hxf : x ∈ t.searchHistory.filter (fun y => y != q) :=
        (List.take_sublist _ _).subset hx
      have := (List.mem_filter.mp hxf).2
      simpa using this
    · rw [hred, List.tail_cons]
      exact (List.take_sublist _ _).trans (List.filter_sublist _)

/-- Witness for C7 at a concrete input: three adds with a repeated query from
the empty initial store. -/
theorem searchHistory_nodup_capped_blank_noop_witness :
    shInvariant ((["dune", "matrix", "dune"].foldl
      (fun t q => AppStore.addToSearchHistory q t) initialAppState).searchHistory) :=
  (searchHistory_nodup_capped_blank_noop _ initialAppState
    (by constructor <;> simp [initialAppState])).1

/-- C8: from a watchlist not containing the movie id, the first
`addToWatchlist` appends the movie with an "added" success toast, the second
is a no-op leaving the state exactly as after the first, the collection holds
exactly one entry with that id, and the "already present" toast of the
second call is distinguishable from the toast of the first call. -/
theorem addToWatchlist_idempotent (movie : Movie) (s : AppState)
    (h : movie.id ∉ s.watchlist.map Movie.id) :
    (AppStore.addToWatchlist movie s).2 = Toast.success "Film ajouté à votre liste à regarder!"
    ∧ ((AppStore.addToWatchlist movie s).1).watchlist = s.watchlist ++ [movie]
    ∧ (((AppStore.addToWatchlist movie s).1).watchlist.filter
        (fun m => m.id == movie.id)).length = 1
    ∧ AppStore.addToWatchlist movie ((AppStore.addToWatchlist movie s).1)
        = ((AppStore.addToWatchlist movie s).1,
            Toast.plain "Ce film est déjà dans votre liste à regarder")
    ∧ Toast.success "Film ajouté à votre liste à regarder!"
        ≠ Toast.plain "Ce film est déjà dans votre liste à regarder" := by
  have hnotid : ∀ x ∈ s.watchlist, ¬ (x.id == movie.id) = true := by
    intro x hx heq
    exact h (List.mem_map.mpr ⟨x, hx, by simpa using heq⟩)
  have hany : s.watchlist.any (fun m => m.id == movie.id) = false :=
    List.any_eq_false.mpr hnotid
  have hfil : s.watchlist.filter (fun m => m.id == movie.id) = [] :=
    List.filter_eq_nil_iff.mpr hnotid
  have h1 : AppStore.addToWatchlist movie s
      = ({ s with watchlist := s.watchlist ++ [movie] },
          Toast.success "Film ajouté à votre liste à regarder!") := by
    simp [AppStore.addToWatchlist, hany]
  have hany2 : (s.watchlist ++ [movie]).any (fun m => m.id == movie.id) = true := by
    simp [List.any_append]
  refine ⟨by rw [h1], by rw [h1], ?_, ?_, by simp⟩
  · rw [h1]
    simp [List.filter_append, hfil]
  · rw [h1]
    simp [AppStore.addToWatchlist, hany2]

/-- Witness for C8 at a concrete input: a fresh store and a concrete movie. -/
theorem addToWatchlist_idempotent_witness :
    (AppStore.addToWatchlist (⟨7, "Dune", none, "2021"⟩ : Movie) initialAppState).2
      = Toast.success "Film ajouté à votre liste à regarder!"
    ∧ ((AppStore.addToWatchlist (⟨7, "Dune", none, "2021"⟩ : Movie) initialAppState).1).watchlist
      = initialAppState.watchlist ++ [⟨7, "Dune", none, "2021"⟩] :=
  ⟨(addToWatchlist_idempotent ⟨7, "Dune", none, "2021"⟩ initialAppState (by simp [initialAppState])).1,
   (addToWatchlist_idempotent ⟨7, "Dune", none, "2021"⟩ initialAppState (by simp [initialAppState])).2.1⟩

/-- C5: favorites mutations are confirmed-only. On any failing server
exchange, `addToFavorites` re-throws the normalized error after an error
toast with the cache untouched; on success the server-returned entry is
appended. `removeFromFavorites` on a cached id behaves symmetrically:
a failing delete leaves the cache untouched and re-throws the normalized
error after an error toast; a confirmed delete filters the cache. -/
theorem favorites_confirmed_mutation (e : AxiosError) (movie : Movie) (movieId : Int)
    (s : AppState) (fav : FavoriteMovie) :
    (AppStore.addToFavorites (.fail e) movie s).1 = .error (ApiService.handleError e)
    ∧ (AppStore.addToFavorites (.fail e) movie s).2.1 = s
    ∧ (AppStore.addToFavorites (.fail e) movie s).2.2 =
        [Toast.error (jsOr (ApiService.handleError e).error
          "Erreur lors de l\x27ajout aux favoris")]
    ∧ (AppStore.addToFavorites (.ok fav) movie s).2.1.favorites = s.favorites ++ [fav]
    ∧ ((s.favorites.find? (fun f => f.movie_id == movieId)).isSome = true →
        (AppStore.removeFromFavorites (.fail e) movieId s).1
            = .error (ApiService.handleError e)
        ∧ (AppStore.removeFromFavorites (.fail e) movieId s).2.1 = s
        ∧ (AppStore.removeFromFavorites (.fail e) movieId s).2.2 =
            [Toast.error (jsOr (ApiService.handleError e).error
              "Erreur lors de la suppression des favoris")])
    ∧ ((s.favorites.find? (fun f => f.movie_id == movieId)).isSome = true →
        (AppStore.removeFromFavorites (.ok ()) movieId s).2.1.favorites
          = s.favorites.filter (fun f => f.movie_id != movieId)) := by
  refine ⟨rfl, rfl, rfl, rfl, ?_, ?_⟩
  · intro hfound
    rcases hf : s.favorites.find? (fun f => f.movie_id == movieId) with _ | fav'
    · rw [hf] at hfound; simp at hfound
    · refine ⟨?_, ?_, ?_⟩ <;> simp [AppStore.removeFromFavorites, hf]
  · intro hfound
    rcases hf : s.favorites.find? (fun f => f.movie_id == movieId) with _ | fav'
    · rw [hf] at hfound; simp at hfound
    · simp [AppStore.removeFromFavorites, hf]

/-- Witness for C5 at a concrete input: the offline scenario — adding movie 42
while the network is down yields a Network error and an unchanged cache, and
removing a cached movie over a failing network leaves the cache unchanged. -/
theorem favorites_confirmed_mutation_witness :
    (AppStore.addToFavorites (.fail .request) (⟨42, "M", none, "2020"⟩ : Movie)
        initialAppState).1
      = .error { error := "Network error. Please check your connection.", status := 0 }
    ∧ (AppStore.addToFavorites (.fail .request) (⟨42, "M", none, "2020"⟩ : Movie)
        initialAppState).2.1 = initialAppState
    ∧ (AppStore.removeFromFavorites (.fail .request) 42
        { initialAppState with favorites := [⟨5, 42, "M", none, "2020", "t"⟩] }).2.1
      = { initialAppState with favorites := [⟨5, 42, "M", none, "2020", "t"⟩] } := by
  have h := favorites_confirmed_mutation .request (⟨42, "M", none, "2020"⟩ : Movie) 42
    { initialAppState with favorites := [⟨5, 42, "M", none, "2020", "t"⟩] }
    ⟨5, 42, "M", none, "2020", "t"⟩
  have h2 := favorites_confirmed_mutation .request (⟨42, "M", none, "2020"⟩ : Movie) 42
    initialAppState ⟨5, 42, "M", none, "2020", "t"⟩
  exact ⟨h2.1, h2.2.1, (h.2.2.2.2.1 (by decide)).2.1⟩

/-- If `ApiService.refreshToken` settles successfully, it returned the new
pair and wrote it to durable storage. -/
theorem refreshToken_ok_eq {resp : HttpOutcome AuthTokens} {st : LocalStorage}
    {t : AuthTokens} (h : (ApiService.refreshToken resp st).1 = .ok t) :
    ApiService.refreshToken resp st = (.ok t, ApiService.setTokens t st) := by
  by_cases hj : jsTruthy (ApiService.getRefreshToken st) = true
  · cases resp with
    | ok tokens =>
        have ht : tokens = t := by
          simpa [ApiService.refreshToken, hj] using h
        subst ht
        simp [ApiService.refreshToken, hj]
    | fail e => simp [ApiService.refreshToken, hj] at h
  · simp [ApiService.refreshToken, hj] at h

/-- C1 (amended): a gateway request answered 401 whose refresh settles in
failure ends with the three durable gateway keys cleared, the normalized
refresh error rejected to the caller, and a forced navigation to the login
page — while the in-memory state of the session store (notably
`isAuthenticated`) is left untouched, since the forced logout of the interceptor goes
through `ApiService.logout` only. -/
theorem gateway_401_refresh_failure {α : Type} (env : RequestEnv α) (c : ClientState)
    (e : AxiosError) (err : ApiError)
    (hf : env.first = .fail e) (h401 : is401 e = true)
    (hr : (ApiService.refreshToken env.refresh c.storage).1 = .error err) :
    (gatewayRequest env c).1.outcome = .error (.refreshFailed err)
    ∧ (gatewayRequest env c).1.redirectedToLogin = true
    ∧ (gatewayRequest env c).2.storage.access_token = none
    ∧ (gatewayRequest env c).2.storage.refresh_token = none
    ∧ (gatewayRequest env c).2.storage.user = none
    ∧ (gatewayRequest env c).2.auth = c.auth := by
  rcases hp : ApiService.refreshToken env.refresh c.storage with ⟨res, st1⟩
  rw [hp] at hr
  simp only at hr
  subst hr
  simp [gatewayRequest, gatewayCall, hf, h401, hp, ApiService.clearTokens]

/-- Concrete authenticated client state used by the C1 theorems. -/
def c1State : ClientState :=
  { auth := { user := some ⟨1, "alice", "a", "A", "L"⟩,
              tokens := some ⟨"acc", "ref"⟩,
              isAuthenticated := true, isLoading := false },
    storage := { access_token := some "acc", refresh_token := some "ref",
                 user := some "alice", auth_storage := none } }

/-- Environment for the C1 theorems: first dispatch answered 401, refresh
settling in a network failure. -/
def c1Env : RequestEnv Unit :=
  { first := .fail (.response 401 none none), refresh := .fail .request,
    second := .ok () }

/-- C1 counterexample: on the 401-then-refresh-failure path the claim says
the session ends with `isAuthenticated = false`, but the interceptor clears
durable storage only — the session store still reports an authenticated
session (its `isAuthenticated` stays `true` and its token pair stays
present). -/
theorem gateway_401_refresh_failure_cex :
    (gatewayRequest c1Env c1State).1.redirectedToLogin = true
    ∧ (gatewayRequest c1Env c1State).2.auth.isAuthenticated = true
    ∧ ¬ ((gatewayRequest c1Env c1State).2.auth.isAuthenticated = false
          ∧ (gatewayRequest c1Env c1State).2.auth.tokens = none) := by
  decide

/-- Witness for C1 (amended) at the concrete input of the counterexample
state: storage cleared, redirect surfaced, refresh error rejected. -/
theorem gateway_401_refresh_failure_witness :
    (gatewayRequest c1Env c1State).1.outcome
      = .error (.refreshFailed (ApiService.handleError .request))
    ∧ (gatewayRequest c1Env c1State).1.redirectedToLogin = true
    ∧ (gatewayRequest c1Env c1State).2.storage.access_token = none := by
  have h := gateway_401_refresh_failure c1Env c1State (.response 401 none none)
    (ApiService.handleError .request) rfl rfl rfl
  exact ⟨h.1, h.2.1, h.2.2.1⟩

/-- C2 (amended): a gateway request answered 401 once, with a successful
refresh whose new access token is non-empty, is re-issued exactly once
carrying the new bearer token, and the caller settles with exactly the
outcome of the re-issued request — in particular a second failure (even
another 401) is final, with no further refresh, no redirect, and the new
pair stored; moreover no request is ever re-issued more than once. -/
theorem gateway_401_retry_once {α : Type} (env : RequestEnv α) (st : LocalStorage)
    (e : AxiosError) (t : AuthTokens)
    (hf : env.first = .fail e) (h401 : is401 e = true)
    (hr : (ApiService.refreshToken env.refresh st).1 = .ok t)
    (ha : t.access ≠ "") :
    (gatewayCall env st).retries = 1
    ∧ (gatewayCall env st).retryAuth = some ("Bearer " ++ t.access)
    ∧ (∀ v, env.second = .ok v → (gatewayCall env st).outcome = .ok v)
    ∧ (∀ e2, env.second = .fail e2 → (gatewayCall env st).outcome = .error (.raw e2))
    ∧ (gatewayCall env st).redirectedToLogin = false
    ∧ (gatewayCall env st).storage = ApiService.setTokens t st
    ∧ (∀ (env2 : RequestEnv α) (st2 : LocalStorage), (gatewayCall env2 st2).retries ≤ 1) := by
  have hp := refreshToken_ok_eq hr
  have hauth : attachAuth (ApiService.setTokens t st) (attachAuth st none)
      = some ("Bearer " ++ t.access) := by
    simp [attachAuth, ApiService.getToken, ApiService.setTokens, ha]
  refine ⟨?_, ?_, ?_, ?_, ?_, ?_, ?_⟩
  · cases hs : env.second <;> simp [gatewayCall, hf, h401, hp, hs]
  · cases hs : env.second <;> simp [gatewayCall, hf, h401, hp, hs, hauth]
  · intro v hv
    simp [gatewayCall, hf, h401, hp, hv]
  · intro e2 hv
    simp [gatewayCall, hf, h401, hp, hv]
  · cases hs : env.second <;> simp [gatewayCall, hf, h401, hp, hs]
  · cases hs : env.second <;> simp [gatewayCall, hf, h401, hp, hs]
  · intro env2 st2
    cases h2 : env2.first with
    | ok v => simp [gatewayCall, h2]
    | fail e2 =>
      by_cases h4 : is401 e2 = true
      · rcases hp2 : ApiService.refreshToken env2.refresh st2 with ⟨res, st3⟩
        cases res with
        | ok tk => cases h5 : env2.second <;> simp [gatewayCall, h2, h4, hp2, h5]
        | error er => simp [gatewayCall, h2, h4, hp2]
      · simp [gatewayCall, h2, h4]

/-- Storage used by the C2 theorems: an old access token and a refresh
token are present. -/
def c2Storage : LocalStorage :=
  { access_token := some "oldA", refresh_token := some "r",
    user := some "alice", auth_storage := none }

/-- Environment for the C2 counterexample: first dispatch answered 401; the
refresh succeeds but returns an empty access token; the retry succeeds. -/
def c2Env : RequestEnv String :=
  { first := .fail (.response 401 none none), refresh := .ok ⟨"", "r2"⟩,
    second := .ok "payload" }

/-- C2 counterexample: when the successful refresh returns an empty access
token, the `if (token)` truthiness guard skips re-attaching it, so the
request is re-issued with the stale header `Bearer oldA` instead of the
header `"Bearer "` formed from the new (empty) access token — refuting
"re-issued with the new access token" as universally stated. -/
theorem gateway_401_retry_once_cex :
    (gatewayCall c2Env c2Storage).retries = 1
    ∧ (gatewayCall c2Env c2Storage).storage.access_token = some ""
    ∧ (gatewayCall c2Env c2Storage).retryAuth = some "Bearer oldA"
    ∧ ¬ ((gatewayCall c2Env c2Storage).retryAuth = some "Bearer ") := by
  decide

/-- Environment for the C2 witness: refresh succeeds with a non-empty
access token. -/
def c2wEnv : RequestEnv String :=
  { first := .fail (.response 401 none none), refresh := .ok ⟨"newA", "newR"⟩,
    second := .ok "payload" }

/-- Witness for C2 (amended) at a concrete input: retried once with the new
bearer token and the retried response delivered to the caller. -/
theorem gateway_401_retry_once_witness :
    (gatewayCall c2wEnv c2Storage).retries = 1
    ∧ (gatewayCall c2wEnv c2Storage).retryAuth = some "Bearer newA"
    ∧ (gatewayCall c2wEnv c2Storage).outcome = .ok "payload" := by
  have h := gateway_401_retry_once c2wEnv c2Storage (.response 401 none none)
    ⟨"newA", "newR"⟩ rfl rfl rfl (by decide)
  refine ⟨h.1, ?_, h.2.2.1 "payload" rfl⟩
  rw [h.2.1]
  rfl

/-- A settled refresh failure returns the normalized error and leaves
storage unchanged. -/
theorem refreshToken_error_eq {resp : HttpOutcome AuthTokens} {st : LocalStorage}
    {err : ApiError} (h : (ApiService.refreshToken resp st).1 = .error err) :
    ApiService.refreshToken resp st = (.error err, st) := by
  by_cases hj : jsTruthy (ApiService.getRefreshToken st) = true
  · cases resp with
    | ok tokens => simp [ApiService.refreshToken, hj] at h
    | fail e =>
        have he : ApiService.handleError e = err := by
          simpa [ApiService.refreshToken, hj] using h
        subst he
        simp [ApiService.refreshToken, hj]
  · have he : ApiService.handleError (.setup (some "No refresh token available")) = err := by
      simpa [ApiService.refreshToken, hj] using h
    subst he
    simp [ApiService.refreshToken, hj]

/-- The settled outcome of a refresh depends on storage only through the
stored refresh token. -/
theorem refreshToken_fst_congr (resp : HttpOutcome AuthTokens) {st1 st2 : LocalStorage}
    (h : st1.refresh_token = st2.refresh_token) :
    (ApiService.refreshToken resp st1).1 = (ApiService.refreshToken resp st2).1 := by
  by_cases hj : jsTruthy st2.refresh_token = true <;>
    cases resp <;>
      simp [ApiService.refreshToken, ApiService.getRefreshToken, h, hj]

/-- Projection facts: the persist write touches only the `auth-storage`
key. -/
theorem persistAuthState_access (a : AuthState) (st : LocalStorage) :
    (persistAuthState a st).access_token = st.access_token := rfl

theorem persistAuthState_refresh (a : AuthState) (st : LocalStorage) :
    (persistAuthState a st).refresh_token = st.refresh_token := rfl

theorem persistAuthState_user (a : AuthState) (st : LocalStorage) :
    (persistAuthState a st).user = st.user := rfl

/-- C4 (amended): a failing login or register mutates the session store only
by clearing the in-flight flag, and the failure — as normalized by the API
layer — is re-thrown to the caller. Durable token storage, however, is not
generally as before the call: it is unchanged when the failing exchange was
answered with a non-401 failure before any token had been issued (register,
or login failing at the token endpoint); a 401 answer instead drives the
interceptor refresh protocol, which on a failed refresh clears the three
gateway keys and surfaces the doubly-normalized generic client error, and on
a successful refresh rotates the stored pair before the final failure; and a
login whose token exchange succeeded writes the newly issued tokens before
the profile fetch, so a profile-step failure leaves them stored (the user
key untouched). -/
theorem login_register_failure_frame (tokenEnv : RequestEnv AuthTokens)
    (profileEnv : RequestEnv User) (regEnv : RequestEnv User) (c : ClientState) :
    (∀ err, (storeRegister regEnv c).1 = .error err →
      (storeRegister regEnv c).2.auth = { c.auth with isLoading := false })
    ∧ (∀ err, (storeLogin tokenEnv profileEnv c).1 = .error err →
      (storeLogin tokenEnv profileEnv c).2.auth = { c.auth with isLoading := false })
    ∧ (∀ e, regEnv.first = .fail e → is401 e = false →
      (storeRegister regEnv c).1 = .error (ApiService.handleError e)
      ∧ (storeRegister regEnv c).2.storage.access_token = c.storage.access_token
      ∧ (storeRegister regEnv c).2.storage.refresh_token = c.storage.refresh_token
      ∧ (storeRegister regEnv c).2.storage.user = c.storage.user)
    ∧ (∀ e, tokenEnv.first = .fail e → is401 e = false →
      (storeLogin tokenEnv profileEnv c).1 = .error (ApiService.handleError e)
      ∧ (storeLogin tokenEnv profileEnv c).2.storage.access_token = c.storage.access_token
      ∧ (storeLogin tokenEnv profileEnv c).2.storage.refresh_token = c.storage.refresh_token
      ∧ (storeLogin tokenEnv profileEnv c).2.storage.user = c.storage.user)
    ∧ (∀ e err2, tokenEnv.first = .fail e → is401 e = true →
      (ApiService.refreshToken tokenEnv.refresh c.storage).1 = .error err2 →
      (storeLogin tokenEnv profileEnv c).1
          = .error { error := "An unexpected error occurred", status := 0 }
      ∧ (storeLogin tokenEnv profileEnv c).2.storage.access_token = none
      ∧ (storeLogin tokenEnv profileEnv c).2.storage.refresh_token = none
      ∧ (storeLogin tokenEnv profileEnv c).2.storage.user = none)
    ∧ (∀ e t2 e2, tokenEnv.first = .fail e → is401 e = true →
      (ApiService.refreshToken tokenEnv.refresh c.storage).1 = .ok t2 →
      tokenEnv.second = .fail e2 →
      (storeLogin tokenEnv profileEnv c).1 = .error (ApiService.handleError e2)
      ∧ (storeLogin tokenEnv profileEnv c).2.storage.access_token = some t2.access
      ∧ (storeLogin tokenEnv profileEnv c).2.storage.refresh_token = some t2.refresh)
    ∧ (∀ t e, tokenEnv.first = .ok t → profileEnv.first = .fail e → is401 e = false →
      (storeLogin tokenEnv profileEnv c).1 = .error (ApiService.handleError e)
      ∧ (storeLogin tokenEnv profileEnv c).2.storage.access_token = some t.access
      ∧ (storeLogin tokenEnv profileEnv c).2.storage.refresh_token = some t.refresh
      ∧ (storeLogin tokenEnv profileEnv c).2.storage.user = c.storage.user) := by
  refine ⟨?_, ?_, ?_, ?_, ?_, ?_, ?_⟩
  · intro err herr
    rcases hp : ApiService.register regEnv
        (persistAuthState { c.auth with isLoading := true } c.storage) with ⟨res, st1⟩
    cases res with
    | ok u => simp [storeRegister, hp] at herr
    | error e2 => simp [storeRegister, hp]
  · intro err herr
    rcases hp : ApiService.login tokenEnv profileEnv
        (persistAuthState { c.auth with isLoading := true } c.storage) with ⟨res, st1⟩
    cases res with
    | ok ut =>
        obtain ⟨u, tk⟩ := ut
        simp [storeLogin, hp] at herr
    | error e2 => simp [storeLogin, hp]
  · intro e he h401
    have hg : ApiService.register regEnv
        (persistAuthState { c.auth with isLoading := true } c.storage)
        = (.error (ApiService.handleError e),
           persistAuthState { c.auth with isLoading := true } c.storage) := by
      simp [ApiService.register, gatewayCall, he, h401, normalizeGatewayError]
    refine ⟨?_, ?_, ?_, ?_⟩ <;>
      simp [storeRegister, hg, persistAuthState_access, persistAuthState_refresh,
        persistAuthState_user]
  · intro e he h401
    have hg : ApiService.login tokenEnv profileEnv
        (persistAuthState { c.auth with isLoading := true } c.storage)
        = (.error (ApiService.handleError e),
           persistAuthState { c.auth with isLoading := true } c.storage) := by
      simp [ApiService.login, gatewayCall, he, h401, normalizeGatewayError]
    refine ⟨?_, ?_, ?_, ?_⟩ <;>
      simp [storeLogin, hg, persistAuthState_access, persistAuthState_refresh,
        persistAuthState_user]
  · intro e err2 he h401 hrf
    have hc : (ApiService.refreshToken tokenEnv.refresh
          (persistAuthState { c.auth with isLoading := true } c.storage)).1
        = (ApiService.refreshToken tokenEnv.refresh c.storage).1 :=
      refreshToken_fst_congr tokenEnv.refresh rfl
    have hfull := refreshToken_error_eq (hc.trans hrf)
    have hg : ApiService.login tokenEnv profileEnv
        (persistAuthState { c.auth with isLoading := true } c.storage)
        = (.error { error := "An unexpected error occurred", status := 0 },
           ApiService.clearTokens
             (persistAuthState { c.auth with isLoading := true } c.storage)) := by
      simp [ApiService.login, gatewayCall, he, h401, hfull, normalizeGatewayError]
    refine ⟨?_, ?_, ?_, ?_⟩ <;>
      simp [storeLogin, hg, persistAuthState_access, persistAuthState_refresh,
        persistAuthState_user, ApiService.clearTokens]
  · intro e t2 e2 he h401 hr hsec
    have hc : (ApiService.refreshToken tokenEnv.refresh
          (persistAuthState { c.auth with isLoading := true } c.storage)).1
        = (ApiService.refreshToken tokenEnv.refresh c.storage).1 :=
      refreshToken_fst_congr tokenEnv.refresh rfl
    have hfull := refreshToken_ok_eq (hc.trans hr)
    have hg : ApiService.login tokenEnv profileEnv
        (persistAuthState { c.auth with isLoading := true } c.storage)
        = (.error (ApiService.handleError e2),
           ApiService.setTokens t2
             (persistAuthState { c.auth with isLoading := true } c.storage)) := by
      simp [ApiService.login, gatewayCall, he, h401, hfull, hsec, normalizeGatewayError]
    refine ⟨?_, ?_, ?_⟩ <;>
      simp [storeLogin, hg, persistAuthState_access, persistAuthState_refresh,
        persistAuthState_user, ApiService.setTokens]
  · intro t e ht he h401
    have hg : ApiService.login tokenEnv profileEnv
        (persistAuthState { c.auth with isLoading := true } c.storage)
        = (.error (ApiService.handleError e),
           ApiService.setTokens t
             (persistAuthState { c.auth with isLoading := true } c.storage)) := by
      simp [ApiService.login, gatewayCall, ht, he, h401, normalizeGatewayError]
    refine ⟨?_, ?_, ?_, ?_⟩ <;>
      simp [storeLogin, hg, persistAuthState_access, persistAuthState_refresh,
        persistAuthState_user, ApiService.setTokens]

/-- Client state used by the C4 theorems. -/
def c4State : ClientState :=
  { auth := initialAuthState, storage := emptyStorage }

/-- C4 counterexample: a login whose token exchange succeeds and whose
profile fetch then fails over the network (no 401 involved) is a failing
login invocation, yet durable token storage is not "as before the call" —
the newly issued access token has been written. -/
theorem login_failure_mutates_token_storage_cex :
    (storeLogin
        { first := .ok ⟨"newA", "newR"⟩, refresh := .ok ⟨"newA", "newR"⟩,
          second := .ok ⟨"newA", "newR"⟩ }
        { first := .fail .request, refresh := .fail .request, second := .fail .request }
        c4State).1
      = .error { error := "Network error. Please check your connection.", status := 0 }
    ∧ (storeLogin
        { first := .ok ⟨"newA", "newR"⟩, refresh := .ok ⟨"newA", "newR"⟩,
          second := .ok ⟨"newA", "newR"⟩ }
        { first := .fail .request, refresh := .fail .request, second := .fail .request }
        c4State).2.storage.access_token = some "newA"
    ∧ ¬ ((storeLogin
        { first := .ok ⟨"newA", "newR"⟩, refresh := .ok ⟨"newA", "newR"⟩,
          second := .ok ⟨"newA", "newR"⟩ }
        { first := .fail .request, refresh := .fail .request, second := .fail .request }
        c4State).2.storage.access_token = c4State.storage.access_token) := by
  exact ⟨rfl, rfl, by decide⟩

/-- Environment settling every exchange in a network failure, used by the
C4 witness. -/
def c4NetFailEnv : RequestEnv User :=
  { first := .fail .request, refresh := .fail .request, second := .fail .request }

/-- Environment issuing the pair `a`/`r` at the token endpoint, used by the
C4 witness. -/
def c4TokenOkEnv : RequestEnv AuthTokens :=
  { first := .ok ⟨"a", "r"⟩, refresh := .ok ⟨"a", "r"⟩, second := .ok ⟨"a", "r"⟩ }

/-- Environment answering the token endpoint with 401 and failing the
refresh, used by the C4 witness. -/
def c4Token401Env : RequestEnv AuthTokens :=
  { first := .fail (.response 401 none none), refresh := .fail .request,
    second := .ok ⟨"a", "r"⟩ }

/-- Witness for C4 (amended) at concrete inputs: a register failing over the
network keeps the token key untouched; a login failing at the profile step
keeps the new pair stored; a login answered 401 at the token endpoint from
an anonymous state (no refresh token) surfaces the doubly-normalized generic
client error. -/
theorem login_register_failure_frame_witness :
    (storeRegister c4NetFailEnv c4State).1 = .error (ApiService.handleError .request)
    ∧ (storeRegister c4NetFailEnv c4State).2.storage.access_token
        = c4State.storage.access_token
    ∧ (storeLogin c4TokenOkEnv c4NetFailEnv c4State).2.storage.access_token = some "a"
    ∧ (storeLogin c4Token401Env c4NetFailEnv c4State).1
      = .error { error := "An unexpected error occurred", status := 0 } := by
  have h := login_register_failure_frame c4TokenOkEnv c4NetFailEnv c4NetFailEnv c4State
  have h2 := login_register_failure_frame c4Token401Env c4NetFailEnv c4NetFailEnv c4State
  refine ⟨(h.2.2.1 .request rfl rfl).1, (h.2.2.1 .request rfl rfl).2.1,
    (h.2.2.2.2.2.2 ⟨"a", "r"⟩ .request rfl rfl rfl).2.1,
    (h2.2.2.2.2.1 (.response 401 none none)
      { error := "No refresh token available", status := 0 } rfl rfl rfl).1⟩

/-- C9: startup reconciliation with a truthy stored access token and a
truthy stored user string that fails to deserialize falls back to a full
logout: the session is Anonymous (user and tokens absent, `isAuthenticated`
false), the three gateway keys are removed and the persisted session record
holds the anonymous session. The operation is a total function — no
exception escapes. -/
theorem checkAuth_corrupt_user_clears (parse : String → Option User) (c : ClientState)
    (ht : jsTruthy c.storage.access_token = true)
    (hu : jsTruthy c.storage.user = true)
    (hp : parse (c.storage.user.getD "") = none) :
    (storeCheckAuth parse c).auth.user = none
    ∧ (storeCheckAuth parse c).auth.tokens = none
    ∧ (storeCheckAuth parse c).auth.isAuthenticated = false
    ∧ (storeCheckAuth parse c).storage.access_token = none
    ∧ (storeCheckAuth parse c).storage.refresh_token = none
    ∧ (storeCheckAuth parse c).storage.user = none
    ∧ (storeCheckAuth parse c).storage.auth_storage
        = some { user := none, tokens := none, isAuthenticated := false } := by
  have hred : storeCheckAuth parse c = storeLogout c := by
    simp [storeCheckAuth, ht, hu, hp]
  rw [hred]
  simp [storeLogout, ApiService.logout, ApiService.clearTokens, persistAuthState]

/-- Client state used by the C9 witness: a stored token next to a corrupted
stored user string. -/
def c9State : ClientState :=
  { auth := initialAuthState,
    storage := { access_token := some "tok", refresh_token := some "ref",
                 user := some "not-json", auth_storage := none } }

/-- Witness for C9 at a concrete input, with a parse function that always
fails (modelling `JSON.parse` throwing on the corrupted string). -/
theorem checkAuth_corrupt_user_clears_witness :
    (storeCheckAuth (fun _ => none) c9State).auth.isAuthenticated = false
    ∧ (storeCheckAuth (fun _ => none) c9State).storage.access_token = none
    ∧ (storeCheckAuth (fun _ => none) c9State).storage.user = none := by
  have h := checkAuth_corrupt_user_clears (fun _ => none) c9State rfl rfl rfl
  exact ⟨h.2.2.1, h.2.2.2.1, h.2.2.2.2.2.1⟩

/-- Storage used by the C10 theorem: the persisted `auth-storage` record
still describes an authenticated session. -/
def c10Storage : LocalStorage :=
  { access_token := some "acc", refresh_token := some "ref", user := some "alice",
    auth_storage := some { user := some ⟨1, "alice", "a", "A", "L"⟩,
                           tokens := some ⟨"acc", "ref"⟩, isAuthenticated := true } }

/-- Environment for the C10 forced-logout scenario. -/
def c10Env : RequestEnv Unit :=
  { first := .fail (.response 401 none none), refresh := .fail .request,
    second := .ok () }

/-- C10: the session is persisted in two independent places. The persist
layer of the store writes `user`, `tokens` and `isAuthenticated` under the
`auth-storage` key; the gateway reads the separate `access_token` /
`refresh_token` keys and its `clearTokens` removes exactly the three gateway
keys, leaving `auth-storage` unchanged in every state — so after a concrete
forced logout the persisted record still holds tokens and
`isAuthenticated = true`. -/
theorem gateway_logout_auth_storage_divergence :
    (∀ (a : AuthState) (st : LocalStorage),
        (persistAuthState a st).auth_storage
          = some { user := a.user, tokens := a.tokens,
                   isAuthenticated := a.isAuthenticated })
    ∧ (∀ st : LocalStorage, ApiService.getToken st = st.access_token
        ∧ ApiService.getRefreshToken st = st.refresh_token)
    ∧ (∀ st : LocalStorage, ApiService.clearTokens st
        = { st with access_token := none, refresh_token := none, user := none })
    ∧ (∀ st : LocalStorage, (ApiService.clearTokens st).auth_storage = st.auth_storage)
    ∧ ((gatewayCall c10Env c10Storage).redirectedToLogin = true
        ∧ (gatewayCall c10Env c10Storage).storage.access_token = none
        ∧ (gatewayCall c10Env c10Storage).storage.refresh_token = none
        ∧ (gatewayCall c10Env c10Storage).storage.auth_storage
            = some { user := some ⟨1, "alice", "a", "A", "L"⟩,
                     tokens := some ⟨"acc", "ref"⟩, isAuthenticated := true }) := by
  refine ⟨fun a st => rfl, fun st => ⟨rfl, rfl⟩, fun st => rfl, fun st => rfl, ?_⟩
  decide

/-- Every auth store operation preserves the strengthened session
invariant. -/
theorem authStep_preserves (ev : AuthEvent) (c : ClientState)
    (h : authInvariantStrong c.auth) : authInvariantStrong (authStep ev c).auth := by
  obtain ⟨hiff, himp⟩ := h
  cases ev with
  | login tokenEnv profileEnv =>
      rcases hp : ApiService.login tokenEnv profileEnv
          (persistAuthState { c.auth with isLoading := true } c.storage) with ⟨res, st1⟩
      cases res with
      | error err =>
          have hred : (authStep (AuthEvent.login tokenEnv profileEnv) c).auth
              = { c.auth with isLoading := false } := by
            simp [authStep, storeLogin, hp]
          rw [hred]
          exact ⟨hiff, himp⟩
      | ok ut =>
          obtain ⟨u, tk⟩ := ut
          have hred : (authStep (AuthEvent.login tokenEnv profileEnv) c).auth
              = { c.auth with
                    user := some u,
                    tokens := some tk,
                    isAuthenticated := true,
                    isLoading := false } := by
            simp [authStep, storeLogin, hp]
          rw [hred]
          refine ⟨?_, ?_⟩ <;> simp [authInvariant]
  | register env =>
      rcases hp : ApiService.register env
          (persistAuthState { c.auth with isLoading := true } c.storage) with ⟨res, st1⟩
      cases res with
      | error err =>
          have hred : (authStep (AuthEvent.register env) c).auth
              = { c.auth with isLoading := false } := by
            simp [authStep, storeRegister, hp]
          rw [hred]
          exact ⟨hiff, himp⟩
      | ok u =>
          have hred : (authStep (AuthEvent.register env) c).auth
              = { c.auth with isLoading := false } := by
            simp [authStep, storeRegister, hp]
          rw [hred]
          exact ⟨hiff, himp⟩
  | logout =>
      refine ⟨?_, ?_⟩ <;> simp [authStep, storeLogout, authInvariant]
  | refresh r =>
      rcases hp : ApiService.refreshToken r c.storage with ⟨res, st1⟩
      cases res with
      | error err =>
          have hred : authStep (AuthEvent.refresh r) c = storeLogout { c with storage := st1 } := by
            simp [authStep, storeRefreshToken, hp]
          rw [hred]
          refine ⟨?_, ?_⟩ <;> simp [storeLogout, authInvariant]
      | ok tk =>
          have hred : (authStep (AuthEvent.refresh r) c).auth
              = { c.auth with tokens := some tk } := by
            simp [authStep, storeRefreshToken, hp]
          rw [hred]
          refine ⟨⟨?_, ?_⟩, ?_⟩
          · intro hA
            exact ⟨(hiff.mp hA).1, by simp⟩
          · intro hu
            exact hiff.mpr ⟨hu.1, himp hu.1⟩
          · intro _
            simp
  | checkAuth p =>
      by_cases hc : (jsTruthy c.storage.access_token && jsTruthy c.storage.user) = true
      · cases hu2 : p (c.storage.user.getD "") with
        | some u =>
            have hred : (authStep (AuthEvent.checkAuth p) c).auth
                = { c.auth with
                    user := some u,
                    tokens := some { access := c.storage.access_token.getD "",
                                     refresh := c.storage.refresh_token.getD "" },
                    isAuthenticated := true } := by
              simp [authStep, storeCheckAuth, hc, hu2]
            rw [hred]
            refine ⟨?_, ?_⟩ <;> simp [authInvariant]
        | none =>
            have hred : authStep (AuthEvent.checkAuth p) c = storeLogout c := by
              simp [authStep, storeCheckAuth, hc, hu2]
            rw [hred]
            refine ⟨?_, ?_⟩ <;> simp [storeLogout, authInvariant]
      · have hred : authStep (AuthEvent.checkAuth p) c = c := by
          simp only [authStep, storeCheckAuth, if_neg hc]
        rw [hred]
        exact ⟨hiff, himp⟩

/-- Every reachable client state satisfies the strengthened session
invariant. -/
theorem authReachable_invariant (c : ClientState) (h : AuthReachable c) :
    authInvariantStrong c.auth := by
  induction h with
  | init st =>
      exact ⟨by simp [initialAuthState, authInvariant], by simp [initialAuthState]⟩
  | step e hr ih => exact authStep_preserves e _ ih

/-- C3: in every client state reachable through the five auth store
operations (login, register, logout, refreshToken, checkAuth, under
arbitrary environments) the session invariant `isAuthenticated ↔ (user
present ∧ tokens present)` holds, and every operation applied at a reachable
state preserves it. -/
theorem auth_store_invariant (c : ClientState) (h : AuthReachable c) :
    authInvariant c.auth ∧ ∀ ev : AuthEvent, authInvariant (authStep ev c).auth :=
  ⟨(authReachable_invariant c h).1,
   fun ev => (authReachable_invariant _ (AuthReachable.step ev h)).1⟩

/-- Token-endpoint environment for the C3 witness: the exchange succeeds
outright. -/
def c3TokenEnv : RequestEnv AuthTokens :=
  { first := .ok ⟨"a", "r"⟩, refresh := .ok ⟨"a", "r"⟩, second := .ok ⟨"a", "r"⟩ }

/-- Profile-endpoint environment for the C3 witness: the fetch succeeds
outright. -/
def c3ProfileEnv : RequestEnv User :=
  { first := .ok ⟨1, "alice", "al", "A", "L"⟩, refresh := .ok ⟨"a", "r"⟩,
    second := .ok ⟨1, "alice", "al", "A", "L"⟩ }

/-- Witness for C3 at a concrete reachable state: the state reached by a
successful login from the initial state. -/
theorem auth_store_invariant_witness :
    authInvariant (authStep (AuthEvent.login c3TokenEnv c3ProfileEnv)
      { auth := initialAuthState, storage := emptyStorage }).auth :=
  (auth_store_invariant _
    (AuthReachable.step _ (AuthReachable.init emptyStorage))).1
